import Mathlib

/-!
Verification of the GDAuth Globus wrapper (`gdauth/globus.py`).

The module is effectful Python: it reads and writes a credential file
(`~/token.npy`), prompts the user for an authorization code, and calls the
Globus SDK.  We embed it shallowly: every external interaction is an oracle
parameter (the file state before the call, the current time returned by
`time.time()`, the outcome of each interactive authorization-code exchange,
and the outcome of each remote SDK call), and the functions return an
outcome record carrying the returned value or propagated exception, the
file state after the call, the number of interactive prompt/exchange blocks
executed, and the list of full records written with `np.save`.
-/

set_option autoImplicit false

namespace GDAuth

/-- The `transfer.api.globus.org` entry of a token response: the fields the
code extracts (`refresh_token`, `access_token`, `expires_at_seconds`). -/
structure TransferData where
  refresh_token : String
  access_token : String
  expires_at_seconds : Int
deriving DecidableEq, Repr

/-- A token response as persisted in `token.npy`; `transfer` models
`token_response.by_resource_server` at key `transfer.api.globus.org`. -/
structure TokenResponse where
  transfer : TransferData
deriving DecidableEq, Repr

/-- Python exceptions the module distinguishes: `globus_sdk.TransferAPIError`
(with its `code` and `message`), `FileNotFoundError`, and every other
exception collapsed to `other`. -/
inductive PyErr where
  | transferAPIError (code msg : String)
  | fileNotFound
  | other (msg : String)
deriving DecidableEq, Repr

/-- State of the credential file `~/token.npy` before or after a call:
absent (loading raises `FileNotFoundError`), readable with a record, or
present but corrupt (loading raises some non-`FileNotFoundError` error). -/
inductive FileState where
  | absent
  | readable (t : TokenResponse)
  | corrupt (msg : String)
deriving DecidableEq, Repr

/-- Outcome of `np.load(globus_token_file, allow_pickle=TRUE).item()`. -/
def loadTokenFile : FileState → Except PyErr TokenResponse
  | FileState.absent => Except.error PyErr.fileNotFound
  | FileState.readable t => Except.ok t
  | FileState.corrupt m => Except.error (PyErr.other m)

/-- Oracle environment of one `refresh_globus_token` call: the credential
file state, the value of the single `time.time()` call, and the results of
the first and (if reached) second interactive authorization-code exchange. -/
structure AuthEnv where
  file : FileState
  now : Int
  exchange1 : Except PyErr TokenResponse
  exchange2 : Except PyErr TokenResponse
deriving Repr

/-- Observable outcome of `refresh_globus_token`: the returned token response
or the propagated exception, the credential file state after the call, how
many interactive prompt/exchange blocks ran (authorization URL shown and a
code read), and the complete records written with `np.save`, in order. -/
structure RefreshOutcome where
  ret : Except PyErr TokenResponse
  fileAfter : FileState
  prompts : Nat
  writes : List TokenResponse
deriving Repr

/-- Embedding of `refresh_globus_token` (globus.py lines 9-64).  Loading the
file catches exactly `FileNotFoundError`, which triggers an interactive
exchange followed by `np.save`; any other load error propagates.  Then the
remaining lifetime `expires_at_seconds - time.time()` is computed, and if it
is negative a (possibly second) interactive exchange runs and its result is
saved.  The final `token_response` is returned without a further check. -/
def refresh_globus_token (env : AuthEnv) : RefreshOutcome :=
  match loadTokenFile env.file with
  | Except.error PyErr.fileNotFound =>
    match env.exchange1 with
    | Except.error e => ⟨Except.error e, env.file, 1, []⟩
    | Except.ok t1 =>
      if t1.transfer.expires_at_seconds - env.now < 0 then
        match env.exchange2 with
        | Except.error e => ⟨Except.error e, FileState.readable t1, 2, [t1]⟩
        | Except.ok t2 => ⟨Except.ok t2, FileState.readable t2, 2, [t1, t2]⟩
      else ⟨Except.ok t1, FileState.readable t1, 1, [t1]⟩
  | Except.error e => ⟨Except.error e, env.file, 0, []⟩
  | Except.ok t =>
    if t.transfer.expires_at_seconds - env.now < 0 then
      match env.exchange1 with
      | Except.error e => ⟨Except.error e, env.file, 1, []⟩
      | Except.ok t1 => ⟨Except.ok t1, FileState.readable t1, 1, [t1]⟩
    else ⟨Except.ok t, env.file, 0, []⟩

/-- The transfer-related data `create_clients` feeds to the SDK authorizer:
`RefreshTokenAuthorizer(transfer_rt, client, access_token=transfer_at,
expires_at=expires_at_s)` (globus.py line 96). -/
structure Clients where
  authorizer_refresh_token : String
  authorizer_access_token : String
  authorizer_expires_at : Int
deriving DecidableEq, Repr

/-- Embedding of `create_clients` (globus.py lines 67-101): it runs
`refresh_globus_token`, extracts `refresh_token`, `access_token` and
`expires_at_seconds` from the transfer entry, and hands them to the
authorizer backing the auth and transfer clients.  An exception from the
token refresh propagates. -/
def create_clients (env : AuthEnv) : Except PyErr Clients :=
  match (refresh_globus_token env).ret with
  | Except.error e => Except.error e
  | Except.ok t =>
    Except.ok ⟨t.transfer.refresh_token, t.transfer.access_token,
      t.transfer.expires_at_seconds⟩

/-- Sample transfer record that expires at time 50. -/
def tokEarly : TokenResponse := ⟨⟨"rt-early", "at-early", 50⟩⟩

/-- Sample transfer record that expires at time 100. -/
def tokEdge : TokenResponse := ⟨⟨"rt-edge", "at-edge", 100⟩⟩

/-- Sample transfer record that expires at time 500. -/
def tokFresh : TokenResponse := ⟨⟨"rt-fresh", "at-fresh", 500⟩⟩

/-- C1: a persisted record whose `expires_at` is strictly in the past makes
`refresh_globus_token` run the interactive authorization-code exchange once,
overwrite the persisted record with the exchange result, and return that
result instead of the loaded record. -/
theorem refresh_globus_token_expired_reauthorizes (env : AuthEnv)
    (t t1 : TokenResponse)
    (hf : env.file = FileState.readable t)
    (hexp : t.transfer.expires_at_seconds < env.now)
    (hex : env.exchange1 = Except.ok t1) :
    refresh_globus_token env =
      ⟨Except.ok t1, FileState.readable t1, 1, [t1]⟩ := by
  simp only [refresh_globus_token, hf, loadTokenFile, hex]
  rw [if_pos (by omega)]

/-- C1 witness: the theorem applied to a concrete environment whose stored
record expired at time 50 while the call happens at time 100. -/
theorem refresh_globus_token_expired_reauthorizes_witness :
    tokEarly.transfer.expires_at_seconds < (100 : Int) ∧
    refresh_globus_token
        ⟨FileState.readable tokEarly, 100, Except.ok tokFresh,
          Except.error (PyErr.other "unused")⟩ =
      ⟨Except.ok tokFresh, FileState.readable tokFresh, 1, [tokFresh]⟩ :=
  ⟨by decide,
    refresh_globus_token_expired_reauthorizes
      ⟨FileState.readable tokEarly, 100, Except.ok tokFresh,
        Except.error (PyErr.other "unused")⟩
      tokEarly tokFresh rfl (by decide) rfl⟩

/-- C2: a persisted record whose `expires_at` is strictly in the future is
returned unchanged: no interactive prompt runs, nothing is written, and the
credential file is untouched. -/
theorem refresh_globus_token_future_reuses (env : AuthEnv)
    (t : TokenResponse)
    (hf : env.file = FileState.readable t)
    (hfut : env.now < t.transfer.expires_at_seconds) :
    refresh_globus_token env = ⟨Except.ok t, env.file, 0, []⟩ := by
  simp only [refresh_globus_token, hf, loadTokenFile]
  rw [if_neg (by omega)]

/-- C2 witness: the theorem applied to a concrete environment whose stored
record expires at time 500 while the call happens at time 100. -/
theorem refresh_globus_token_future_reuses_witness :
    (100 : Int) < tokFresh.transfer.expires_at_seconds ∧
    refresh_globus_token
        ⟨FileState.readable tokFresh, 100, Except.error (PyErr.other "unused"),
          Except.error (PyErr.other "unused")⟩ =
      ⟨Except.ok tokFresh, FileState.readable tokFresh, 0, []⟩ :=
  ⟨by decide,
    refresh_globus_token_future_reuses
      ⟨FileState.readable tokFresh, 100, Except.error (PyErr.other "unused"),
        Except.error (PyErr.other "unused")⟩
      tokFresh rfl (by decide)⟩

/-- Environment whose stored record expires exactly at the current time. -/
def envEdge : AuthEnv :=
  ⟨FileState.readable tokEdge, 100, Except.error (PyErr.other "unused"),
    Except.error (PyErr.other "unused")⟩

/-- C3 counterexample: with a stored record whose `expires_at_seconds` equals
the current time, `refresh_globus_token` returns that record for use even
though its remaining lifetime `expires_at - now` is not strictly positive:
the code re-authorizes only when the lifetime is strictly negative. -/
theorem refresh_globus_token_returns_dead_record :
    (refresh_globus_token envEdge).ret = Except.ok tokEdge ∧
    ¬ (0 < tokEdge.transfer.expires_at_seconds - envEdge.now) :=
  ⟨rfl, by decide⟩

/-- C3 amended: provided every interactive exchange that occurs yields a
record whose `expires_at_seconds` is at least the current time, the record
returned by `refresh_globus_token` has remaining lifetime at least 0 — but
not necessarily strictly positive. -/
theorem refresh_globus_token_life_nonneg (env : AuthEnv) (r : TokenResponse)
    (hx1 : ∀ u, env.exchange1 = Except.ok u →
      env.now ≤ u.transfer.expires_at_seconds)
    (hx2 : ∀ u, env.exchange2 = Except.ok u →
      env.now ≤ u.transfer.expires_at_seconds)
    (hr : (refresh_globus_token env).ret = Except.ok r) :
    0 ≤ r.transfer.expires_at_seconds - env.now := by
  obtain ⟨file, now, ex1, ex2⟩ := env
  dsimp only at hx1 hx2 hr ⊢
  cases file with
  | absent =>
    cases ex1 with
    | error e => simp [refresh_globus_token, loadTokenFile] at hr
    | ok t1 =>
      have h1 := hx1 t1 rfl
      by_cases hlt : t1.transfer.expires_at_seconds - now < 0
      · omega
      · simp [refresh_globus_token, loadTokenFile, hlt] at hr
        subst hr
        omega
  | readable t =>
    by_cases hlt : t.transfer.expires_at_seconds - now < 0
    · cases ex1 with
      | error e => simp [refresh_globus_token, loadTokenFile, hlt] at hr
      | ok t1 =>
        have h1 := hx1 t1 rfl
        simp [refresh_globus_token, loadTokenFile, hlt] at hr
        subst hr
        omega
    · simp [refresh_globus_token, loadTokenFile, hlt] at hr
      subst hr
      omega
  | corrupt m => simp [refresh_globus_token, loadTokenFile] at hr

/-- C3 amended witness: concrete run at time 100 on a stored record expiring
at 500; the returned record has nonnegative remaining lifetime. -/
theorem refresh_globus_token_life_nonneg_witness :
    (refresh_globus_token
        ⟨FileState.readable tokFresh, 100, Except.ok tokFresh,
          Except.ok tokFresh⟩).ret = Except.ok tokFresh ∧
    0 ≤ tokFresh.transfer.expires_at_seconds - (100 : Int) :=
  ⟨rfl,
    refresh_globus_token_life_nonneg
      ⟨FileState.readable tokFresh, 100, Except.ok tokFresh,
        Except.ok tokFresh⟩
      tokFresh
      (fun u h => by injection h with h2; rw [← h2]; decide)
      (fun u h => by injection h with h2; rw [← h2]; decide)
      rfl⟩

/-- C5: the missing credential file is the only handled failure.  A corrupt
file (any non-`FileNotFoundError` load error) propagates untouched with no
prompt and no write; a missing file triggers the interactive creation, whose
exchange failure propagates; an exchange failure on the expired path also
propagates. -/
theorem refresh_globus_token_error_propagation
    (env1 env2 env3 : AuthEnv) (m : String) (e2 e3 : PyErr)
    (t : TokenResponse)
    (h1 : env1.file = FileState.corrupt m)
    (h2a : env2.file = FileState.absent)
    (h2b : env2.exchange1 = Except.error e2)
    (h3a : env3.file = FileState.readable t)
    (h3b : t.transfer.expires_at_seconds - env3.now < 0)
    (h3c : env3.exchange1 = Except.error e3) :
    refresh_globus_token env1 =
      ⟨Except.error (PyErr.other m), env1.file, 0, []⟩ ∧
    refresh_globus_token env2 = ⟨Except.error e2, env2.file, 1, []⟩ ∧
    refresh_globus_token env3 = ⟨Except.error e3, env3.file, 1, []⟩ := by
  refine ⟨?_, ?_, ?_⟩
  · simp [refresh_globus_token, h1, loadTokenFile]
  · simp [refresh_globus_token, h2a, loadTokenFile, h2b]
  · simp only [refresh_globus_token, h3a, loadTokenFile, h3c]
    rw [if_pos h3b]

/-- C5 witness: the three failure shapes at concrete environments — corrupt
file, missing file with failing exchange, expired record with failing
exchange. -/
theorem refresh_globus_token_error_propagation_witness :
    refresh_globus_token
        ⟨FileState.corrupt "bad", 100, Except.ok tokFresh,
          Except.ok tokFresh⟩ =
      ⟨Except.error (PyErr.other "bad"), FileState.corrupt "bad", 0, []⟩ ∧
    refresh_globus_token
        ⟨FileState.absent, 100, Except.error (PyErr.other "boom2"),
          Except.ok tokFresh⟩ =
      ⟨Except.error (PyErr.other "boom2"), FileState.absent, 1, []⟩ ∧
    refresh_globus_token
        ⟨FileState.readable tokEarly, 100,
          Except.error (PyErr.other "boom3"), Except.ok tokFresh⟩ =
      ⟨Except.error (PyErr.other "boom3"), FileState.readable tokEarly, 1,
        []⟩ :=
  refresh_globus_token_error_propagation
    ⟨FileState.corrupt "bad", 100, Except.ok tokFresh, Except.ok tokFresh⟩
    ⟨FileState.absent, 100, Except.error (PyErr.other "boom2"),
      Except.ok tokFresh⟩
    ⟨FileState.readable tokEarly, 100, Except.error (PyErr.other "boom3"),
      Except.ok tokFresh⟩
    "bad" (PyErr.other "boom2") (PyErr.other "boom3") tokEarly
    rfl rfl rfl rfl (by decide) rfl

/-- C6: when the persisted record is expired, a new credential is only ever
obtained through the interactive prompt: at least one prompt/exchange block
runs, the returned record is exactly the interactive exchange result, and
`create_clients` merely extracts the refresh token from that result for the
SDK authorizer — no non-interactive refresh-token redemption produces the
returned credential. -/
theorem refresh_globus_token_interactive_only (env : AuthEnv)
    (t : TokenResponse)
    (hf : env.file = FileState.readable t)
    (hexp : t.transfer.expires_at_seconds - env.now < 0) :
    1 ≤ (refresh_globus_token env).prompts ∧
    (∀ t1, env.exchange1 = Except.ok t1 →
      (refresh_globus_token env).ret = Except.ok t1 ∧
      create_clients env = Except.ok ⟨t1.transfer.refresh_token,
        t1.transfer.access_token, t1.transfer.expires_at_seconds⟩) := by
  obtain ⟨file, now, ex1, ex2⟩ := env
  simp only at hf hexp
  subst hf
  cases ex1 with
  | error e =>
    constructor
    · simp [refresh_globus_token, loadTokenFile, hexp]
    · intro t1 h
      exact absurd h (by simp)
  | ok t1 =>
    constructor
    · simp [refresh_globus_token, loadTokenFile, hexp]
    · intro u h
      injection h with h2
      subst h2
      constructor
      · simp [refresh_globus_token, loadTokenFile, hexp]
      · simp [create_clients, refresh_globus_token, loadTokenFile, hexp]

/-- C6 witness: concrete expired record at time 100; the new credential is
the interactive exchange result and its refresh token reaches the
authorizer. -/
theorem refresh_globus_token_interactive_only_witness :
    1 ≤ (refresh_globus_token
        ⟨FileState.readable tokEarly, 100, Except.ok tokFresh,
          Except.error (PyErr.other "unused")⟩).prompts ∧
    (refresh_globus_token
        ⟨FileState.readable tokEarly, 100, Except.ok tokFresh,
          Except.error (PyErr.other "unused")⟩).ret = Except.ok tokFresh ∧
    create_clients
        ⟨FileState.readable tokEarly, 100, Except.ok tokFresh,
          Except.error (PyErr.other "unused")⟩ =
      Except.ok ⟨tokFresh.transfer.refresh_token,
        tokFresh.transfer.access_token,
        tokFresh.transfer.expires_at_seconds⟩ :=
  have H := refresh_globus_token_interactive_only
    ⟨FileState.readable tokEarly, 100, Except.ok tokFresh,
      Except.error (PyErr.other "unused")⟩
    tokEarly rfl (by decide)
  ⟨H.1, (H.2 tokFresh rfl).1, (H.2 tokFresh rfl).2⟩

/-- C7: the credential file is never edited in place or deleted — either it
is left exactly as it was and nothing is written, or one or more complete
records are written, the file afterwards holds one whole record, and this
happens only when the file was absent or the loaded record was expired. -/
theorem refresh_globus_token_file_frame (env : AuthEnv) :
    ((refresh_globus_token env).fileAfter = env.file ∧
      (refresh_globus_token env).writes = []) ∨
    (0 < (refresh_globus_token env).writes.length ∧
      (∃ t, (refresh_globus_token env).fileAfter = FileState.readable t) ∧
      (env.file = FileState.absent ∨
        ∃ t, env.file = FileState.readable t ∧
          t.transfer.expires_at_seconds - env.now < 0)) := by
  obtain ⟨file, now, ex1, ex2⟩ := env
  cases file with
  | absent =>
    cases ex1 with
    | error e => exact Or.inl ⟨rfl, rfl⟩
    | ok t1 =>
      by_cases hlt : t1.transfer.expires_at_seconds - now < 0
      · cases ex2 with
        | error e =>
          right
          refine ⟨?_, ⟨t1, ?_⟩, Or.inl rfl⟩ <;>
            simp [refresh_globus_token, loadTokenFile, hlt]
        | ok t2 =>
          right
          refine ⟨?_, ⟨t2, ?_⟩, Or.inl rfl⟩ <;>
            simp [refresh_globus_token, loadTokenFile, hlt]
      · right
        refine ⟨?_, ⟨t1, ?_⟩, Or.inl rfl⟩ <;>
          simp [refresh_globus_token, loadTokenFile, hlt]
  | readable t =>
    by_cases hlt : t.transfer.expires_at_seconds - now < 0
    · cases ex1 with
      | error e =>
        left
        constructor <;> simp [refresh_globus_token, loadTokenFile, hlt]
      | ok t1 =>
        right
        refine ⟨?_, ⟨t1, ?_⟩, Or.inr ⟨t, rfl, hlt⟩⟩ <;>
          simp [refresh_globus_token, loadTokenFile, hlt]
    · left
      constructor <;> simp [refresh_globus_token, loadTokenFile, hlt]
  | corrupt m => exact Or.inl ⟨rfl, rfl⟩

/-- Embedding of `check_folder_exists` (globus.py lines 126-137).  The
`clients` oracle is the outcome of the `create_clients` call, `lsResult` the
outcome of `tc.operation_ls`: success returns `True`, a `TransferAPIError`
with code `ClientError.NotFound` returns `False`, any other
`TransferAPIError` is re-raised, and any other exception is not caught. -/
def check_folder_exists (clients : Except PyErr Unit)
    (lsResult : Except PyErr Unit) : Except PyErr Bool :=
  match clients with
  | Except.error e => Except.error e
  | Except.ok _ =>
    match lsResult with
    | Except.ok _ => Except.ok true
    | Except.error (PyErr.transferAPIError code msg) =>
      if code = "ClientError.NotFound" then Except.ok false
      else Except.error (PyErr.transferAPIError code msg)
    | Except.error e => Except.error e

/-- C4: `check_folder_exists` returns `True` when the listing succeeds,
`False` exactly when the listing raises a `TransferAPIError` with code
`ClientError.NotFound`, and re-raises every other error. -/
theorem check_folder_exists_not_found_spec (lsResult : Except PyErr Unit)
    (code msg s : String) :
    check_folder_exists (Except.ok ()) (Except.ok ()) = Except.ok true ∧
    check_folder_exists (Except.ok ())
        (Except.error (PyErr.transferAPIError "ClientError.NotFound" msg)) =
      Except.ok false ∧
    (code ≠ "ClientError.NotFound" →
      check_folder_exists (Except.ok ())
          (Except.error (PyErr.transferAPIError code msg)) =
        Except.error (PyErr.transferAPIError code msg)) ∧
    check_folder_exists (Except.ok ()) (Except.error (PyErr.other s)) =
      Except.error (PyErr.other s) ∧
    (check_folder_exists (Except.ok ()) lsResult = Except.ok false ↔
      ∃ m, lsResult =
        Except.error (PyErr.transferAPIError "ClientError.NotFound" m)) := by
  refine ⟨rfl, by simp [check_folder_exists], ?_, rfl, ?_, ?_⟩
  · intro h
    simp [check_folder_exists, h]
  · intro h
    cases lsResult with
    | ok u => simp [check_folder_exists] at h
    | error e =>
      cases e with
      | transferAPIError c m =>
        by_cases hc : c = "ClientError.NotFound"
        · subst hc
          exact ⟨m, rfl⟩
        · simp [check_folder_exists, hc] at h
      | fileNotFound => simp [check_folder_exists] at h
      | other s2 => simp [check_folder_exists] at h
  · rintro ⟨m, rfl⟩
    simp [check_folder_exists]

/-- C4 witness: a concrete non-`NotFound` transfer error is re-raised. -/
theorem check_folder_exists_not_found_spec_witness :
    ("EndpointPermissionDenied" : String) ≠ "ClientError.NotFound" ∧
    check_folder_exists (Except.ok ())
        (Except.error
          (PyErr.transferAPIError "EndpointPermissionDenied" "denied")) =
      Except.error
        (PyErr.transferAPIError "EndpointPermissionDenied" "denied") :=
  ⟨by decide,
    (check_folder_exists_not_found_spec (Except.ok ())
        "EndpointPermissionDenied" "denied" "s").2.2.1 (by decide)⟩

/-- Embedding of `create_dir` (globus.py lines 104-123).  The oracles are
the outcome of `create_clients` (outside the `try`, so its errors
propagate), of `tc.operation_mkdir`, and of the `create_folder_link` call in
the `try` body (`link1`) and in the `TransferAPIError` handler (`link2`).  A
`TransferAPIError` raised in the `try` body is answered with `True`; any
other exception there hits the bare `except` and yields `False`; an
exception raised inside the handler propagates. -/
def create_dir (clients : Except PyErr Unit)
    (mkdirResult : Except PyErr Unit)
    (link1 link2 : Except PyErr String) : Except PyErr Bool :=
  match clients with
  | Except.error e => Except.error e
  | Except.ok _ =>
    match mkdirResult with
    | Except.ok _ =>
      match link1 with
      | Except.ok _ => Except.ok true
      | Except.error (PyErr.transferAPIError _ _) =>
        match link2 with
        | Except.ok _ => Except.ok true
        | Except.error e => Except.error e
      | Except.error _ => Except.ok false
    | Except.error (PyErr.transferAPIError _ _) =>
      match link2 with
      | Except.ok _ => Except.ok true
      | Except.error e => Except.error e
    | Except.error _ => Except.ok false

/-- C8: with working clients and link building, `create_dir` answers `True`
both when `operation_mkdir` succeeds and when it raises a
`TransferAPIError` (for instance because the directory already exists), and
`False` exactly when `operation_mkdir` raises anything else — so `True`
does not mean this call created the directory. -/
theorem create_dir_true_despite_transfer_error (mkdirResult : Except PyErr Unit)
    (l1 l2 : String) :
    create_dir (Except.ok ()) mkdirResult (Except.ok l1) (Except.ok l2) =
      Except.ok (match mkdirResult with
        | Except.ok _ => true
        | Except.error (PyErr.transferAPIError _ _) => true
        | Except.error _ => false) := by
  cases mkdirResult with
  | ok u => rfl
  | error e => cases e <;> rfl

/-- Observable outcome of `share`: the returned value — `some` flag from a
`return True`/`return False`, `none` when the function falls through and
returns `None` — or a propagated exception, and the number of
`add_endpoint_acl_rule` calls attempted. -/
structure ShareOutcome where
  ret : Except PyErr (Option Bool)
  aclCalls : Nat
deriving Repr

/-- Embedding of `share` (globus.py lines 151-200).  The oracles are the
outcome of the `check_folder_exists` call, of `create_clients`, of
`get_user_id`, of `tc.add_endpoint_acl_rule`, and of the
`create_folder_link` call inside the `try` body.  When the folder check is
`False` the function only logs and returns `None`.  Any exception from the
ACL call (or from the link call after it) is answered with `return False`
by one of the two handlers. -/
def share (folderCheck : Except PyErr Bool) (clients : Except PyErr Unit)
    (userId : Except PyErr String) (acl : Except PyErr Unit)
    (link : Except PyErr String) : ShareOutcome :=
  match folderCheck with
  | Except.error e => ⟨Except.error e, 0⟩
  | Except.ok false => ⟨Except.ok none, 0⟩
  | Except.ok true =>
    match clients with
    | Except.error e => ⟨Except.error e, 0⟩
    | Except.ok _ =>
      match userId with
      | Except.error e => ⟨Except.error e, 0⟩
      | Except.ok _ =>
        match acl with
        | Except.error _ => ⟨Except.ok (some false), 1⟩
        | Except.ok _ =>
          match link with
          | Except.ok _ => ⟨Except.ok (some true), 1⟩
          | Except.error _ => ⟨Except.ok (some false), 1⟩

/-- C9: when the directory does not exist, `share` attempts no ACL mutation
and returns `None` — neither `True` nor `False`. -/
theorem share_missing_folder_returns_none (clients : Except PyErr Unit)
    (userId : Except PyErr String) (acl : Except PyErr Unit)
    (link : Except PyErr String) :
    share (Except.ok false) clients userId acl link =
      ⟨Except.ok none, 0⟩ :=
  rfl

/-- One endpoint as returned by `tc.endpoint_search`: its `id` and
`display_name` fields. -/
structure EndpointInfo where
  id : String
  display_name : String
deriving DecidableEq, Repr

/-- Python dict assignment `d[k] = v`: replace the value in place when the
key is present, otherwise append the new binding. -/
def dictInsert (d : List (String × String)) (k v : String) :
    List (String × String) :=
  if d.any (fun p => p.1 == k) then
    d.map (fun p => if p.1 == k then (k, v) else p)
  else d ++ [(k, v)]

/-- Python dict lookup `d[k]` as an option. -/
def dictGet (d : List (String × String)) (k : String) : Option String :=
  (d.find? (fun p => p.1 == k)).map (fun p => p.2)

/-- Python membership test `k in d`. -/
def dictContains (d : List (String × String)) (k : String) : Bool :=
  d.any (fun p => p.1 == k)

/-- Embedding of `find_endpoints` (globus.py lines 203-232).  The `search`
oracle maps a `filter_scope` to the endpoints `tc.endpoint_search` yields.
With `show=True` the three scopes are listed in the log, but the returned
dict is filled only inside the `shared-by-me` loop; with `show=False` only
`shared-by-me` is searched.  Either way the result maps each
`display_name` to its `id`. -/
def find_endpoints (search : String → List EndpointInfo)
    (showFlag : Bool) : List (String × String) :=
  if showFlag then
    (search "shared-by-me").foldl
      (fun d ep => dictInsert d ep.display_name ep.id) []
  else
    (search "shared-by-me").foldl
      (fun d ep => dictInsert d ep.display_name ep.id) []

/-- Embedding of `find_endpoint_uuid` (globus.py lines 260-274): it calls
`find_endpoints` with the default `show=False`, answers the stored UUID
when the name is a key of the resulting dict, and otherwise logs the
available names and returns the initial `None`. -/
def find_endpoint_uuid (search : String → List EndpointInfo)
    (ep_name : String) : Option String :=
  let end_points := find_endpoints search false
  if dictContains end_points ep_name then dictGet end_points ep_name
  else none

/-- A dict lookup on an absent key yields nothing. -/
theorem dictGet_eq_none_of_not_contains (d : List (String × String))
    (k : String) (h : dictContains d k = false) : dictGet d k = none := by
  unfold dictContains at h
  unfold dictGet
  have hf : d.find? (fun p => p.1 == k) = none := by
    rw [List.find?_eq_none]
    intro x hx hpx
    rw [List.any_eq_false] at h
    exact absurd hpx (h x hx)
  rw [hf]
  rfl

/-- C10: `find_endpoint_uuid` resolves a name exactly by lookup in the dict
built from the `shared-by-me` endpoint search (the `show=False` path of
`find_endpoints`), and yields `None` — without raising — whenever the name
is not a key of that dict. -/
theorem find_endpoint_uuid_shared_by_me_only
    (search : String → List EndpointInfo) (ep_name : String) :
    find_endpoint_uuid search ep_name =
      dictGet ((search "shared-by-me").foldl
        (fun d ep => dictInsert d ep.display_name ep.id) []) ep_name ∧
    (dictContains (find_endpoints search false) ep_name = false →
      find_endpoint_uuid search ep_name = none) := by
  constructor
  · unfold find_endpoint_uuid find_endpoints
    by_cases h : dictContains ((search "shared-by-me").foldl
        (fun d ep => dictInsert d ep.display_name ep.id) []) ep_name
    · simp [h]
    · rw [Bool.not_eq_true] at h
      simp [h, dictGet_eq_none_of_not_contains _ _ h]
  · intro h
    simp [find_endpoint_uuid, h]

/-- C10 witness: with no `shared-by-me` endpoints at all, the lookup is the
empty-dict lookup and the unknown name resolves to `None`. -/
theorem find_endpoint_uuid_shared_by_me_only_witness :
    dictContains (find_endpoints (fun _ => []) false) "instrument-data" =
      false ∧
    find_endpoint_uuid (fun _ => []) "instrument-data" = none :=
  ⟨rfl,
    (find_endpoint_uuid_shared_by_me_only (fun _ => []) "instrument-data").2
      rfl⟩

end GDAuth
